import Mathlib

/-!
# Verification of the ciam-cli credential/session layer

Shallow embedding of the core of `ciam-cli` (Python) in Lean 4:

* `src/ciam/util.py`   — `redact_secrets` (the Redaction Policy)
* `src/ciam/auth.py`   — `TokenManager` (token fetch, cache, request preparation)
* `src/ciam/output.py` — `OutputLogger` and the process-wide `get_logger`
* `src/ciam/http.py`   — `APIClient._make_request`

Python dicts/lists/scalars are embedded as a mutually inductive JSON-like
value type.  Machine-level effects (HTTP, the environment, the clock, the
filesystem) are passed in explicitly; stateful objects become explicit
state passing.
-/

/-! ## JSON-like values (Python dict / list / scalar structures) -/

mutual

inductive JValue where
  | jnull : JValue
  | jbool : Bool → JValue
  | jint : Int → JValue
  | jstr : String → JValue
  | jarr : JList → JValue
  | jobj : JObj → JValue

inductive JList where
  | nil : JList
  | cons : JValue → JList → JList

inductive JObj where
  | nil : JObj
  | cons : String → JValue → JObj → JObj

end

namespace JList

def length : JList → Nat
  | .nil => 0
  | .cons _ xs => xs.length + 1

end JList

namespace JObj

/-- Key list of a mapping, in order (Python dict keys are unique in practice). -/
def keys : JObj → List String
  | .nil => []
  | .cons k _ rest => k :: rest.keys

/-- `dict.get k` / `dict[k]`: first value stored at `k`, if any. -/
def find : JObj → String → Option JValue
  | .nil, _ => none
  | .cons k v rest, key => if k == key then some v else rest.find key

def length : JObj → Nat
  | .nil => 0
  | .cons _ _ rest => rest.length + 1

end JObj

/-- Python truthiness of a value (`if not x` tests). -/
def truthyJ : JValue → Bool
  | .jnull => false
  | .jbool b => b
  | .jint n => n != 0
  | .jstr s => s != ""
  | .jarr l => l.length != 0
  | .jobj o => o.length != 0

/-- ASCII lowercasing of one character (`str.lower()` on the ASCII keys this
code uses). -/
def lowerChar (c : Char) : Char :=
  if 65 ≤ c.toNat && c.toNat ≤ 90 then Char.ofNat (c.toNat + 32) else c

/-- `str.lower()` (ASCII). -/
def lowerStr (s : String) : String := String.mk (s.toList.map lowerChar)

/-- ASCII uppercasing of one character (`str.upper()`). -/
def upperChar (c : Char) : Char :=
  if 97 ≤ c.toNat && c.toNat ≤ 122 then Char.ofNat (c.toNat - 32) else c

/-- `str.upper()` (ASCII). -/
def upperStr (s : String) : String := String.mk (s.toList.map upperChar)

/-- Python `needle in hay` on strings (substring containment). -/
def strContains (hay needle : String) : Bool :=
  (List.range (hay.toList.length + 1)).any
    (fun i => needle.toList.isPrefixOf (hay.toList.drop i))

/-! ## `redact_secrets` — src/ciam/util.py lines 17–44 -/

def REDACTED : String := "***REDACTED***"

/-- Keys always redacted, regardless of verbosity. -/
def alwaysRedactKeys : List String := ["password", "secret", "authorization", "bearer"]

/-- Keys additionally redacted in non-verbose mode. -/
def nonVerboseRedactKeys : List String := ["token", "key", "credential", "access"]

/-- Does the lowercased key contain an always-redacted fragment? -/
def matchesAlways (key : String) : Bool :=
  alwaysRedactKeys.any (fun x => strContains (lowerStr key) x)

/-- Does the lowercased key contain a non-verbose-redacted fragment? -/
def matchesNonVerbose (key : String) : Bool :=
  nonVerboseRedactKeys.any (fun x => strContains (lowerStr key) x)

mutual

/-- `redact_secrets(data, verbose)`. -/
def redact_secrets (verbose : Bool) : JValue → JValue
  | .jobj o => .jobj (redactObj verbose o)
  | .jarr l => .jarr (redactList verbose l)
  | v => v

def redactList (verbose : Bool) : JList → JList
  | .nil => .nil
  | .cons x xs => .cons (redact_secrets verbose x) (redactList verbose xs)

def redactObj (verbose : Bool) : JObj → JObj
  | .nil => .nil
  | .cons k v rest =>
      if matchesAlways k then
        .cons k (.jstr REDACTED) (redactObj verbose rest)
      else if !verbose && matchesNonVerbose k then
        .cons k (.jstr REDACTED) (redactObj verbose rest)
      else
        .cons k (redact_secrets verbose v) (redactObj verbose rest)

end

/-! Sequence lengths occurring anywhere in a value, in traversal order
(used to talk about structure preservation). -/

mutual

def seqLens : JValue → List Nat
  | .jarr l => l.length :: seqLensList l
  | .jobj o => seqLensObj o
  | _ => []

def seqLensList : JList → List Nat
  | .nil => []
  | .cons x xs => seqLens x ++ seqLensList xs

def seqLensObj : JObj → List Nat
  | .nil => []
  | .cons _ v rest => seqLens v ++ seqLensObj rest

end

/-! ## Token endpoints and credentials — src/ciam/auth.py -/

/-- `PINGONE_TOKEN_URLS` — src/ciam/auth.py lines 18–32 (literal embedding). -/
def PINGONE_TOKEN_URLS : List ((String × String) × String) :=
  [ (("us", "dev"), "https://auth-us-dev.pingone.com/oauth2/token"),
    (("us", "qa"), "https://auth-us-qa.pingone.com/oauth2/token"),
    (("us", "uat"), "https://auth-us-uat.pingone.com/oauth2/token"),
    (("us", "prod"), "https://auth-us.pingone.com/oauth2/token"),
    (("uk", "qa"), "https://auth-uk-qa.pingone.com/oauth2/token"),
    (("uk", "uat"), "https://auth-uk-uat.pingone.com/oauth2/token"),
    (("uk", "prod"), "https://auth-uk.pingone.com/oauth2/token"),
    (("can", "qa"), "https://auth-can-qa.pingone.com/oauth2/token"),
    (("can", "uat"), "https://auth-can-uat.pingone.com/oauth2/token"),
    (("can", "prod"), "https://auth-can.pingone.com/oauth2/token"),
    (("anz", "qa"), "https://auth-anz-qa.pingone.com/oauth2/token"),
    (("anz", "uat"), "https://auth-anz-uat.pingone.com/oauth2/token"),
    (("anz", "prod"), "https://auth-anz.pingone.com/oauth2/token") ]

/-- `PINGONE_TOKEN_URLS.get((region, env))`. -/
def lookupTokenUrl (region env : String) : Option String :=
  (PINGONE_TOKEN_URLS.find? (fun p => p.1 == (region, env))).map (·.2)

/-- Python truthiness of an optional string (`if not client_id`‑style tests:
`None` and `""` are falsy). -/
def truthyStr : Option String → Bool
  | none => false
  | some s => s != ""

/-- The process environment, `os.getenv`. -/
def EnvMap : Type := String → Option String

/-- `TokenManager._get_credential_env_var` — auth.py lines 47–56. -/
def credentialEnvVar (envv : EnvMap) (region env kind : String) :
    Option String × Option String :=
  let pfx := upperStr region ++ "_" ++ upperStr env
  let suffix := if kind == "general" then "GENERAL" else "CLIENTOPS"
  (envv (pfx ++ "_" ++ suffix ++ "_CLIENT_ID"),
   envv (pfx ++ "_" ++ suffix ++ "_CLIENT_SECRET"))

/-! ## Request preparation — auth.py lines 59–71 -/

/-- Standard base64 alphabet. -/
def b64Alphabet : List Char :=
  "ABCDEFGHIJKLMNOPQRSTUVWXYZabcdefghijklmnopqrstuvwxyz0123456789+/".toList

def b64Char (n : Nat) : Char := b64Alphabet.getD n '?'

/-- Base64 of a byte list (standard padding), as in `base64.b64encode`. -/
def b64encodeBytes : List Nat → List Char
  | [] => []
  | [a] => [b64Char (a / 4), b64Char (a % 4 * 16), '=', '=']
  | [a, b] => [b64Char (a / 4), b64Char (a % 4 * 16 + b / 16), b64Char (b % 16 * 4), '=']
  | a :: b :: c :: rest =>
      b64Char (a / 4) :: b64Char (a % 4 * 16 + b / 16) ::
      b64Char (b % 16 * 4 + c / 64) :: b64Char (c % 64) :: b64encodeBytes rest

/-- UTF-8 encoding of one character. -/
def utf8Bytes (c : Char) : List Nat :=
  let n := c.toNat
  if n < 0x80 then [n]
  else if n < 0x800 then [0xC0 + n / 0x40, 0x80 + n % 0x40]
  else if n < 0x10000 then [0xE0 + n / 0x1000, 0x80 + n / 0x40 % 0x40, 0x80 + n % 0x40]
  else [0xF0 + n / 0x40000, 0x80 + n / 0x1000 % 0x40, 0x80 + n / 0x40 % 0x40, 0x80 + n % 0x40]

/-- UTF-8 bytes of a string (`str.encode()`). -/
def strBytes (s : String) : List Nat := (s.toList.map utf8Bytes).flatten

/-- `base64.b64encode(s.encode()).decode()`. -/
def b64encode (s : String) : String := String.mk (b64encodeBytes (strBytes s))

structure PreparedRequest where
  url : String
  headers : List (String × String)
  data : List (String × String)

/-- `TokenManager.prepare_general_request` — auth.py lines 59–65. -/
def prepare_general_request (client_id client_secret token_url : String) :
    PreparedRequest :=
  let basic := b64encode (client_id ++ ":" ++ client_secret)
  { url := token_url
    headers := [("Authorization", "Basic " ++ basic),
                ("Content-Type", "application/x-www-form-urlencoded")]
    data := [("grant_type", "client_credentials")] }

/-- `TokenManager.prepare_clientops_request` — auth.py lines 67–71. -/
def prepare_clientops_request (client_id client_secret token_url : String) :
    PreparedRequest :=
  { url := token_url
    headers := [("Content-Type", "application/x-www-form-urlencoded")]
    data := [("grant_type", "client_credentials"),
             ("client_id", client_id),
             ("client_secret", client_secret)] }

/-! ## Token fetch — auth.py lines 73–140 -/

/-- Outcome of `response.json()` falling back to `response.text`. -/
inductive BodyParse where
  | json : JValue → BodyParse
  | text : String → BodyParse

/-- What the single HTTP POST of a fetch does, supplied by the world. -/
inductive HttpOutcome where
  | netError : String → HttpOutcome
  | resp : Int → List (String × String) → BodyParse → HttpOutcome

inductive TokenError where
  | unknownKind : String → TokenError
  | endpointNotFound : String → String → TokenError
  | missingCredentials : String → String → TokenError
  | httpStatus : Int → TokenError
  | networkError : String → TokenError
  | noAccessToken : TokenError
  | intParseError : String → TokenError
  | intTypeError : TokenError

structure FetchResult where
  result : Except TokenError BodyParse
  httpCalls : Nat

/-- `TokenManager.fetch_general_token` — auth.py lines 73–107.
The two `log_entry` calls touch only the audit logger, which no claim about
this function inspects; they are elided here. -/
def fetch_general_token (envv : EnvMap) (http : HttpOutcome) (region env : String) :
    FetchResult :=
  if !truthyStr (lookupTokenUrl region env) then
    ⟨.error (.endpointNotFound region env), 0⟩
  else
    let creds := credentialEnvVar envv region env "general"
    if !truthyStr creds.1 || !truthyStr creds.2 then
      ⟨.error (.missingCredentials region env), 0⟩
    else
      match http with
      | .netError msg => ⟨.error (.networkError msg), 1⟩
      | .resp status _ body =>
          if status != 200 then ⟨.error (.httpStatus status), 1⟩
          else ⟨.ok body, 1⟩

/-- `TokenManager.fetch_clientops_token` — auth.py lines 109–140. -/
def fetch_clientops_token (envv : EnvMap) (http : HttpOutcome) (region env : String) :
    FetchResult :=
  if !truthyStr (lookupTokenUrl region env) then
    ⟨.error (.endpointNotFound region env), 0⟩
  else
    let creds := credentialEnvVar envv region env "clientops"
    if !truthyStr creds.1 || !truthyStr creds.2 then
      ⟨.error (.missingCredentials region env), 0⟩
    else
      match http with
      | .netError msg => ⟨.error (.networkError msg), 1⟩
      | .resp status _ body =>
          if status != 200 then ⟨.error (.httpStatus status), 1⟩
          else ⟨.ok body, 1⟩

/-! ## `get_token` — auth.py lines 142–181 -/

/-- Python `int(x)` on the embedded values: ints pass through, booleans become
0/1, strings are parsed as decimal integers (optional sign, surrounding
whitespace) or raise `ValueError`; other types raise `TypeError`. -/
def pyWhitespace (c : Char) : Bool :=
  c == ' ' || c == '\t' || c == '\n' || c == '\r' || c == '\x0b' || c == '\x0c'

def pyIntOfStr (s : String) : Option Int :=
  let t := ((s.toList.dropWhile pyWhitespace).reverse.dropWhile pyWhitespace).reverse
  match t with
  | [] => none
  | c :: rest =>
      let digits := if c == '-' || c == '+' then rest else c :: rest
      if digits.isEmpty || !digits.all Char.isDigit then none
      else
        let mag : Int := digits.foldl (fun acc d => acc * 10 + (d.toNat - 48)) 0
        some (if c == '-' then -mag else mag)

def pyInt : JValue → Except TokenError Int
  | .jint n => .ok n
  | .jbool b => .ok (if b then 1 else 0)
  | .jstr s =>
      match pyIntOfStr s with
      | some n => .ok n
      | none => .error (.intParseError s)
  | _ => .error .intTypeError

/-- One cache slot: `self.tokens[kind]` — auth.py lines 174–179. -/
structure TokenData where
  access_token : JValue
  expires_at : Int
  client_id : Option String
  client_secret : Option String

/-- `self.tokens`, keys `"general"` and `"clientops"` — auth.py line 45. -/
structure TMState where
  general : Option TokenData
  clientops : Option TokenData

/-- `self.tokens.get(kind)` for a normalized kind. -/
def slotGet (st : TMState) (kind : String) : Option TokenData :=
  if kind == "general" then st.general
  else if kind == "clientops" then st.clientops
  else none

/-- `self.tokens[kind] = ...` for a normalized kind. -/
def slotSet (st : TMState) (kind : String) (td : TokenData) : TMState :=
  if kind == "general" then { st with general := some td }
  else { st with clientops := some td }

/-- Kind normalization at the top of `get_token` — auth.py lines 145–149. -/
def normalizeKind (kind : String) : Except TokenError String :=
  if kind == "general" || kind == "clientops" then .ok kind
  else if kind == "client" then .ok "clientops"
  else .error (.unknownKind kind)

structure GetTokenResult where
  result : Except TokenError JValue
  state : TMState
  fetchAttempts : Nat
  httpCalls : Nat

/-- `body.get(key) if isinstance(body, dict) else None`. -/
def bodyGet : BodyParse → String → Option JValue
  | .json (.jobj o), key => o.find key
  | _, _ => none

/-- The fetch dispatch on the normalized kind — auth.py lines 157-160. -/
def fetchByKind (envv : EnvMap) (http : HttpOutcome) (k region env : String) :
    FetchResult :=
  if k == "general" then fetch_general_token envv http region env
  else fetch_clientops_token envv http region env

/-- The post-fetch half of `get_token` — auth.py lines 162–181: extract
`access_token`, compute `expires_at = now + int(expires_in or 3600)`, store
the slot (with the credentials re-read for display) and return the token. -/
def getTokenStore (envv : EnvMap) (now : Int) (st : TMState)
    (kind region env : String) (body : BodyParse) (calls : Nat) : GetTokenResult :=
  let access_token := bodyGet body "access_token"
  match access_token with
  | none => ⟨.error .noAccessToken, st, 1, calls⟩
  | some tok =>
      if !truthyJ tok then ⟨.error .noAccessToken, st, 1, calls⟩
      else
        let expires_in := bodyGet body "expires_in"
        -- `int(expires_in or 3600)`: a falsy value (absent, None, 0, "") falls
        -- back to 3600 before the conversion.
        let ei : Except TokenError Int :=
          match expires_in with
          | none => .ok 3600
          | some j => if truthyJ j then pyInt j else .ok 3600
        match ei with
        | .error e => ⟨.error e, st, 1, calls⟩
        | .ok n =>
            let expires_at := now + n
            let creds := credentialEnvVar envv region env kind
            ⟨.ok tok,
             slotSet st kind
               { access_token := tok, expires_at := expires_at,
                 client_id := creds.1, client_secret := creds.2 },
             1, calls⟩

/-- `TokenManager.get_token` — auth.py lines 142–181.  `envv` is the process
environment, `http` the outcome of the (at most one) token POST, `now` the
value of `datetime.utcnow()` during the call, in seconds.  `fetchAttempts`
counts invocations of `fetch_general_token`/`fetch_clientops_token` and
`httpCalls` the HTTP POSTs actually issued. -/
def get_token (envv : EnvMap) (http : HttpOutcome) (now : Int) (st : TMState)
    (kind region env : String) (force_refresh : Bool) : GetTokenResult :=
  match normalizeKind kind with
  | .error e => ⟨.error e, st, 0, 0⟩
  | .ok k =>
      -- Cache check — auth.py lines 152–154 (`expires_at`, a datetime, is
      -- always truthy, so `token_data.get("expires_at")` adds nothing).
      let cached : Option JValue :=
        match slotGet st k with
        | some td =>
            if !force_refresh && decide (td.expires_at > now + 5 * 60) then
              some td.access_token
            else none
        | none => none
      match cached with
      | some tok => ⟨.ok tok, st, 0, 0⟩
      | none =>
          let fr := fetchByKind envv http k region env
          match fr.result with
          | .error e => ⟨.error e, st, 1, fr.httpCalls⟩
          | .ok body => getTokenStore envv now st k region env body fr.httpCalls

/-- The situations in which the cache check of `get_token` (auth.py line 153)
does not return the cached token: forced refresh, empty slot, or a cached
expiry within the 5-minute margin of `now`. -/
def cacheMiss (st : TMState) (k : String) (now : Int) (force_refresh : Bool) : Prop :=
  force_refresh = true ∨ slotGet st k = none ∨
    ∃ td, slotGet st k = some td ∧ td.expires_at ≤ now + 5 * 60

/-! ## Audit logger — src/ciam/output.py -/

/-- One audit entry — output.py lines 29–44. -/
structure LogEntry where
  timestamp : Int
  operation : String
  request : Option JValue
  response : Option JValue
  error : Option String

/-- `OutputLogger` state — output.py lines 15–19 (the output directory is a
filesystem concern outside the model). -/
structure LoggerState where
  verbose : Bool
  entries : List LogEntry

/-- `OutputLogger.log_entry` — output.py lines 21–45.  The `if request:` /
`if response:` / `if error:` guards are Python truthiness tests, so an empty
dict or empty string argument is dropped like an absent one. -/
def log_entry (st : LoggerState) (now : Int) (operation : String)
    (request response : Option JValue) (error : Option String) : LoggerState :=
  let entry : LogEntry :=
    { timestamp := now
      operation := operation
      request :=
        match request with
        | some r => if truthyJ r then some (redact_secrets st.verbose r) else none
        | none => none
      response :=
        match response with
        | some r => if truthyJ r then some (redact_secrets st.verbose r) else none
        | none => none
      error :=
        match error with
        | some e => if e != "" then some e else none
        | none => none }
  { st with entries := st.entries ++ [entry] }

/-- `OutputLogger.write_to_file` — output.py lines 47–59.  `ts` is
`datetime.utcnow().strftime("%Y%m%d_%H%M%S")`; the returned pair is the
file's path and the exact sequence of entries serialized into it; `none`
means no file is created. -/
def write_to_file (st : LoggerState) (ts : String) : Option (String × List LogEntry) :=
  if st.entries.isEmpty then none
  else some ("output-" ++ ts ++ ".json", st.entries)

/-- `OutputLogger.clear` — output.py lines 61–63. -/
def loggerClear (st : LoggerState) : LoggerState := { st with entries := [] }

/-- `get_logger` — output.py lines 70–75: the global `_logger` is created on
first use with the verbosity of that first call; later calls return it
unchanged.  The global cell is the `Option LoggerState`. -/
def get_logger (verbose : Bool) : Option LoggerState → LoggerState × Option LoggerState
  | none =>
      let l : LoggerState := { verbose := verbose, entries := [] }
      (l, some l)
  | some l => (l, some l)

/-! ## API client — src/ciam/http.py -/

/-- The fields of `APIClient.__init__` — http.py lines 34–48 (the token
manager is the process-global one; `logger` is the logger obtained from
`get_logger(verbose)`). -/
structure APIClient where
  region : String
  env : String
  store_id : Option String
  credential_type : String
  verbose : Bool
  logger : LoggerState

/-- `APIClient.__init__` — http.py lines 34–48, threading the global logger
cell. -/
def apiClientInit (region env : String) (store_id : Option String)
    (credential_type : String) (verbose : Bool) (g : Option LoggerState) :
    APIClient × Option LoggerState :=
  let lg := get_logger verbose g
  ({ region := region, env := env, store_id := store_id,
     credential_type := credential_type, verbose := verbose, logger := lg.1 },
   lg.2)

/-- The `request_meta` dict — http.py lines 93–99. -/
def requestMeta (method url : String) (headers : List (String × String))
    (params json_body : Option JValue) : JValue :=
  .jobj (.cons "method" (.jstr method)
    (.cons "url" (.jstr url)
      (.cons "headers" (.jobj (headers.foldr (fun p acc => .cons p.1 (.jstr p.2) acc) .nil))
        (.cons "params" (params.getD .jnull)
          (.cons "body" (json_body.getD .jnull) .nil)))))

/-- The `response_meta` dict — http.py lines 112–120. -/
def responseMeta (status : Int) (rheaders : List (String × String))
    (body : BodyParse) : JValue :=
  .jobj (.cons "status_code" (.jint status)
    (.cons "headers" (.jobj (rheaders.foldr (fun p acc => .cons p.1 (.jstr p.2) acc) .nil))
      (.cons "body" (match body with | .json j => j | .text s => .jstr s) .nil)))

/-- `requests.Response.raise_for_status` raises `HTTPError` exactly for
status codes in [400, 600). -/
def raisesForStatus (status : Int) : Bool :=
  decide (400 ≤ status) && decide (status < 600)

/-- The message of the raised `RequestException` (its text is irrelevant to
the claims; only its presence is modelled). -/
def httpErrorMsg (status : Int) (url : String) : String :=
  "HTTPError " ++ toString status ++ " for url: " ++ url

/-- The normalized success value — http.py lines 130–134. -/
def successResult (status : Int) (body : BodyParse) : JValue :=
  .jobj (.cons "success" (.jbool true)
    (.cons "status_code" (.jint status)
      (.cons "data" (match body with | .json j => j | .text s => .jstr s) .nil)))

structure MakeRequestResult where
  logger : LoggerState
  result : Except String JValue

/-- `APIClient._make_request` — http.py lines 76–143, after the base URL and
headers have been resolved (`url` is `base_url + endpoint`).  On a response,
the request and response metadata are logged first; `raise_for_status` then
raises `HTTPError` for a 4xx/5xx status, which — being a
`requests.RequestException` — is caught by the same `except` block, logged a
second time with an `error` field, and re-raised.  A network-level error is
logged once with an `error` field and re-raised. -/
def make_request (lg : LoggerState) (now : Int) (method endpoint url : String)
    (headers : List (String × String)) (params json_body : Option JValue)
    (outcome : HttpOutcome) : MakeRequestResult :=
  let req := requestMeta method url headers params json_body
  let op := method ++ " " ++ endpoint
  match outcome with
  | .netError msg =>
      ⟨log_entry lg now op (some req) none (some msg), .error msg⟩
  | .resp status rheaders body =>
      let lg2 := log_entry lg now op (some req) (some (responseMeta status rheaders body)) none
      if raisesForStatus status then
        let msg := httpErrorMsg status url
        ⟨log_entry lg2 now op (some req) none (some msg), .error msg⟩
      else
        ⟨lg2, .ok (successResult status body)⟩

/-! # Theorems -/

/-! ## Redaction policy lemmas -/

mutual

theorem redact_idem (verbose : Bool) :
    ∀ j : JValue, redact_secrets verbose (redact_secrets verbose j) = redact_secrets verbose j
  | .jnull => rfl
  | .jbool _ => rfl
  | .jint _ => rfl
  | .jstr _ => rfl
  | .jarr l => congrArg JValue.jarr (redactList_idem verbose l)
  | .jobj o => congrArg JValue.jobj (redactObj_idem verbose o)

theorem redactList_idem (verbose : Bool) :
    ∀ l : JList, redactList verbose (redactList verbose l) = redactList verbose l
  | .nil => rfl
  | .cons x xs => by
      simp only [redactList]
      exact congrArg₂ JList.cons (redact_idem verbose x) (redactList_idem verbose xs)

theorem redactObj_idem (verbose : Bool) :
    ∀ o : JObj, redactObj verbose (redactObj verbose o) = redactObj verbose o
  | .nil => rfl
  | .cons k v rest => by
      by_cases ha : matchesAlways k = true
      · simp only [redactObj, ha, if_true]
        exact congrArg (JObj.cons k (.jstr REDACTED)) (redactObj_idem verbose rest)
      · by_cases hnv : (!verbose && matchesNonVerbose k) = true
        · simp only [redactObj, ha, hnv, if_false, if_true, Bool.false_eq_true]
          exact congrArg (JObj.cons k (.jstr REDACTED)) (redactObj_idem verbose rest)
        · simp only [redactObj, ha, hnv, if_false, Bool.false_eq_true]
          exact congrArg₂ (JObj.cons k) (redact_idem verbose v) (redactObj_idem verbose rest)

end

theorem redactObj_keys (verbose : Bool) :
    ∀ o : JObj, (redactObj verbose o).keys = o.keys
  | .nil => rfl
  | .cons k v rest => by
      by_cases ha : matchesAlways k = true
      · simp only [redactObj, ha, if_true, JObj.keys]
        exact congrArg (k :: ·) (redactObj_keys verbose rest)
      · by_cases hnv : (!verbose && matchesNonVerbose k) = true
        · simp only [redactObj, ha, hnv, if_false, if_true, Bool.false_eq_true, JObj.keys]
          exact congrArg (k :: ·) (redactObj_keys verbose rest)
        · simp only [redactObj, ha, hnv, if_false, Bool.false_eq_true, JObj.keys]
          exact congrArg (k :: ·) (redactObj_keys verbose rest)

theorem redactList_length (verbose : Bool) :
    ∀ l : JList, (redactList verbose l).length = l.length
  | .nil => rfl
  | .cons x xs => by
      simp only [redactList, JList.length]
      exact congrArg (· + 1) (redactList_length verbose xs)

/-! ## C2: per-key redaction behavior -/

/-- C2 (amended): for every mapping, verbosity and key bound in the mapping,
the redacted mapping holds at that key: the marker if the lowercased key
contains an always-redacted fragment (password/secret/authorization/bearer),
regardless of verbosity; the marker if not verbose and the key contains
token/key/credential/access; otherwise the original value with the policy
applied recursively inside it (not necessarily unchanged). -/
theorem redact_key_matching_spec (verbose : Bool) :
    ∀ (o : JObj) (k : String) (v : JValue), o.find k = some v →
      (redactObj verbose o).find k =
        some (if matchesAlways k then JValue.jstr REDACTED
              else if !verbose && matchesNonVerbose k then JValue.jstr REDACTED
              else redact_secrets verbose v)
  | .nil, _, _, h => by simp [JObj.find] at h
  | .cons k2 v2 rest, k, v, h => by
      by_cases hb : (k2 == k) = true
      · have hk2 : k2 = k := eq_of_beq hb
        subst hk2
        have hv : v2 = v := by simpa [JObj.find] using h
        subst hv
        by_cases ha : matchesAlways k2 = true
        · simp [redactObj, ha, JObj.find]
        · by_cases hnv : (!verbose && matchesNonVerbose k2) = true
          · simp [redactObj, ha, hnv, JObj.find]
          · simp [redactObj, ha, hnv, JObj.find]
      · have h' : rest.find k = some v := by simpa [JObj.find, hb] using h
        have IH := redact_key_matching_spec verbose rest k v h'
        have hskip : (redactObj verbose (JObj.cons k2 v2 rest)).find k
            = (redactObj verbose rest).find k := by
          by_cases ha : matchesAlways k2 = true
          · simp [redactObj, ha, JObj.find, hb]
          · by_cases hnv : (!verbose && matchesNonVerbose k2) = true
            · simp [redactObj, ha, hnv, JObj.find, hb]
            · simp [redactObj, ha, hnv, JObj.find, hb]
        rw [hskip, IH]

/-- C2 witness: the `Authorization` key is redacted even in verbose mode. -/
theorem redact_key_matching_spec_witness :
    (redactObj true (JObj.cons "Authorization" (JValue.jstr "Basic abc") JObj.nil)).find
        "Authorization" = some (JValue.jstr REDACTED) := by
  have h := redact_key_matching_spec true
    (JObj.cons "Authorization" (JValue.jstr "Basic abc") JObj.nil)
    "Authorization" (JValue.jstr "Basic abc") rfl
  rw [h]
  rfl

/-- C2 counterexample: in verbose mode the value at a key containing
`token` is *not* left unchanged — the policy recurses into it and redacts a
nested `password` key. -/
theorem redact_verbose_recursive_counterexample :
    (redactObj true (JObj.cons "token"
        (JValue.jobj (JObj.cons "password" (JValue.jstr "p") JObj.nil)) JObj.nil)).find "token"
      = some (JValue.jobj (JObj.cons "password" (JValue.jstr REDACTED) JObj.nil))
    ∧ REDACTED ≠ "p" := ⟨rfl, by decide⟩

/-! ## C3: idempotence and shape preservation -/

/-- C3 (amended): redaction is idempotent; the key list of a processed
mapping and the length of a processed sequence are preserved.  (Shape below
a matched key is *not* preserved: the whole value there becomes the scalar
marker — see the counterexample.) -/
theorem redact_idempotent_shape_spec (verbose : Bool) (j : JValue) (o : JObj) (l : JList) :
    redact_secrets verbose (redact_secrets verbose j) = redact_secrets verbose j
    ∧ (redactObj verbose o).keys = o.keys
    ∧ (redactList verbose l).length = l.length :=
  ⟨redact_idem verbose j, redactObj_keys verbose o, redactList_length verbose l⟩

/-- C3 counterexample: a sequence of length 3 sitting under the matched key
`secret` is replaced wholesale by the scalar marker, so the output loses the
sequence: sequence lengths are not preserved and a non-scalar value at a
matched key is altered. -/
theorem redact_shape_counterexample :
    seqLens (JValue.jobj (JObj.cons "secret"
        (JValue.jarr (JList.cons (JValue.jint 1) (JList.cons (JValue.jint 2)
          (JList.cons (JValue.jint 3) JList.nil)))) JObj.nil)) = [3]
    ∧ seqLens (redact_secrets false (JValue.jobj (JObj.cons "secret"
        (JValue.jarr (JList.cons (JValue.jint 1) (JList.cons (JValue.jint 2)
          (JList.cons (JValue.jint 3) JList.nil)))) JObj.nil))) = [] := ⟨rfl, rfl⟩

/-! ## Token manager lemmas -/

theorem normalizeKind_ok {kind k : String} (hk : normalizeKind kind = .ok k) :
    k = "general" ∨ k = "clientops" := by
  unfold normalizeKind at hk
  by_cases h1 : (kind == "general" || kind == "clientops") = true
  · rw [if_pos h1] at hk
    cases hk
    exact (Bool.or_eq_true_iff.mp h1).imp eq_of_beq eq_of_beq
  · rw [if_neg h1] at hk
    by_cases h2 : (kind == "client") = true
    · rw [if_pos h2] at hk
      cases hk
      exact Or.inr rfl
    · rw [if_neg h2] at hk
      cases hk

theorem slotGet_slotSet {st : TMState} {k : String} {td : TokenData}
    (hk : k = "general" ∨ k = "clientops") :
    slotGet (slotSet st k td) k = some td := by
  rcases hk with rfl | rfl <;> rfl

theorem get_token_hit (envv : EnvMap) (http : HttpOutcome) (now : Int) (st : TMState)
    (kind region env k : String) (force_refresh : Bool) (td : TokenData)
    (hk : normalizeKind kind = .ok k)
    (hslot : slotGet st k = some td)
    (hfr : force_refresh = false)
    (hfresh : td.expires_at > now + 5 * 60) :
    get_token envv http now st kind region env force_refresh =
      ⟨.ok td.access_token, st, 0, 0⟩ := by
  unfold get_token
  rw [hk]
  simp only [hslot, hfr, Bool.not_false, Bool.true_and, decide_eq_true hfresh, if_true]

theorem get_token_miss (envv : EnvMap) (http : HttpOutcome) (now : Int) (st : TMState)
    (kind region env k : String) (force_refresh : Bool)
    (hk : normalizeKind kind = .ok k)
    (hmiss : cacheMiss st k now force_refresh) :
    get_token envv http now st kind region env force_refresh =
      match (fetchByKind envv http k region env).result with
      | .error e => ⟨.error e, st, 1, (fetchByKind envv http k region env).httpCalls⟩
      | .ok body =>
          getTokenStore envv now st k region env body
            (fetchByKind envv http k region env).httpCalls := by
  unfold get_token
  rw [hk]
  have hcached : (match slotGet st k with
      | some td =>
          if !force_refresh && decide (td.expires_at > now + 5 * 60) then
            some td.access_token
          else none
      | none => none) = (none : Option JValue) := by
    rcases hmiss with hfr | hnone | ⟨td, hslot, hexp⟩
    · subst hfr
      cases slotGet st k <;> simp
    · rw [hnone]
    · rw [hslot]
      have : decide (td.expires_at > now + 5 * 60) = false :=
        decide_eq_false (by omega)
      simp only [this, Bool.and_false, Bool.false_eq_true, if_false]
  dsimp only
  rw [hcached]

theorem getTokenStore_fetchAttempts (envv : EnvMap) (now : Int) (st : TMState)
    (kind region env : String) (body : BodyParse) (calls : Nat) :
    (getTokenStore envv now st kind region env body calls).fetchAttempts = 1 := by
  unfold getTokenStore
  cases bodyGet body "access_token" with
  | none => rfl
  | some tok =>
      by_cases ht : truthyJ tok = true
      · simp only [ht, Bool.not_true, Bool.false_eq_true, if_false]
        cases hei : (match bodyGet body "expires_in" with
            | none => (Except.ok 3600 : Except TokenError Int)
            | some j => if truthyJ j then pyInt j else Except.ok 3600) with
        | error e => simp [hei]
        | ok n => simp [hei]
      · simp only [Bool.not_eq_true] at ht
        simp [ht]

theorem getTokenStore_success (envv : EnvMap) (now : Int) (st : TMState)
    (kind region env : String) (body : BodyParse) (calls : Nat) (tok : JValue) (n : Int)
    (htok : bodyGet body "access_token" = some tok)
    (ht : truthyJ tok = true)
    (hei : (match bodyGet body "expires_in" with
            | none => (Except.ok 3600 : Except TokenError Int)
            | some j => if truthyJ j then pyInt j else Except.ok 3600) = Except.ok n) :
    getTokenStore envv now st kind region env body calls =
      ⟨.ok tok,
       slotSet st kind
         { access_token := tok, expires_at := now + n,
           client_id := (credentialEnvVar envv region env kind).1,
           client_secret := (credentialEnvVar envv region env kind).2 },
       1, calls⟩ := by
  unfold getTokenStore
  rw [htok]
  simp only [ht, Bool.not_true, Bool.false_eq_true, if_false, hei]

theorem getTokenStore_error_state (envv : EnvMap) (now : Int) (st : TMState)
    (kind region env : String) (body : BodyParse) (calls : Nat) :
    (getTokenStore envv now st kind region env body calls).state = st
    ∨ ∃ tok, (getTokenStore envv now st kind region env body calls).result = .ok tok := by
  unfold getTokenStore
  cases bodyGet body "access_token" with
  | none => exact Or.inl rfl
  | some tok =>
      by_cases ht : truthyJ tok = true
      · simp only [ht, Bool.not_true, Bool.false_eq_true, if_false]
        cases hei : (match bodyGet body "expires_in" with
            | none => (Except.ok 3600 : Except TokenError Int)
            | some j => if truthyJ j then pyInt j else Except.ok 3600) with
        | error e => simp [hei]
        | ok n =>
            right
            exact ⟨tok, by simp [hei]⟩
      · simp only [Bool.not_eq_true] at ht
        simp [ht]

/-! ## C1: cache reuse policy of `get_token` -/

/-- C1: a call with a cached token whose expiry is strictly later than
`now + 5 minutes` and without `force_refresh` returns the cached access
token with no fetch and no state change; any call outside that condition
(forced, empty slot, or expiry within the margin) invokes the fetch exactly
once, and — when the fetch succeeds and yields a usable `access_token` —
overwrites the slot with the new token.  In particular a cached token whose
expiry is `T + 3600` is reused at every `now < T + 3300` and triggers a
fetch at every `now ≥ T + 3300`. -/
theorem get_token_cache_policy (envv : EnvMap) (http : HttpOutcome) (now T : Int)
    (st : TMState) (kind region env k : String) (force_refresh : Bool) (td : TokenData)
    (hk : normalizeKind kind = .ok k) :
    (slotGet st k = some td → force_refresh = false → td.expires_at > now + 5 * 60 →
      get_token envv http now st kind region env force_refresh =
        ⟨.ok td.access_token, st, 0, 0⟩)
    ∧ (cacheMiss st k now force_refresh →
        (get_token envv http now st kind region env force_refresh).fetchAttempts = 1)
    ∧ (∀ body tok n, cacheMiss st k now force_refresh →
        (fetchByKind envv http k region env).result = .ok body →
        bodyGet body "access_token" = some tok → truthyJ tok = true →
        (match bodyGet body "expires_in" with
          | none => (Except.ok 3600 : Except TokenError Int)
          | some j => if truthyJ j then pyInt j else Except.ok 3600) = Except.ok n →
        get_token envv http now st kind region env force_refresh =
          ⟨.ok tok,
           slotSet st k
             { access_token := tok, expires_at := now + n,
               client_id := (credentialEnvVar envv region env k).1,
               client_secret := (credentialEnvVar envv region env k).2 },
           1, (fetchByKind envv http k region env).httpCalls⟩)
    ∧ (slotGet st k = some td → td.expires_at = T + 3600 → force_refresh = false →
        (now < T + 3300 →
          get_token envv http now st kind region env force_refresh =
            ⟨.ok td.access_token, st, 0, 0⟩)
        ∧ (T + 3300 ≤ now →
          (get_token envv http now st kind region env force_refresh).fetchAttempts = 1)) := by
  refine ⟨?_, ?_, ?_, ?_⟩
  · intro hslot hfr hfresh
    exact get_token_hit envv http now st kind region env k force_refresh td hk hslot hfr hfresh
  · intro hmiss
    rw [get_token_miss envv http now st kind region env k force_refresh hk hmiss]
    cases hfe : (fetchByKind envv http k region env).result with
    | error e => rfl
    | ok body => exact getTokenStore_fetchAttempts envv now st k region env body _
  · intro body tok n hmiss hfetch htok ht hei
    rw [get_token_miss envv http now st kind region env k force_refresh hk hmiss, hfetch]
    exact getTokenStore_success envv now st k region env body _ tok n htok ht hei
  · intro hslot hexp hfr
    constructor
    · intro hlt
      exact get_token_hit envv http now st kind region env k force_refresh td hk hslot hfr
        (by omega)
    · intro hge
      have hmiss : cacheMiss st k now force_refresh :=
        Or.inr (Or.inr ⟨td, hslot, by omega⟩)
      rw [get_token_miss envv http now st kind region env k force_refresh hk hmiss]
      cases hfe : (fetchByKind envv http k region env).result with
      | error e => rfl
      | ok body => exact getTokenStore_fetchAttempts envv now st k region env body _

/-- C1 witness: a token with expiry 1000 cached at slot `general` is returned
as-is at `now = 0` with no fetch and no state change. -/
theorem get_token_cache_policy_witness :
    get_token (fun _ => none) (.netError "down") 0
        ⟨some ⟨.jstr "tok", 1000, none, none⟩, none⟩ "general" "us" "dev" false
      = ⟨.ok (.jstr "tok"), ⟨some ⟨.jstr "tok", 1000, none, none⟩, none⟩, 0, 0⟩ :=
  (get_token_cache_policy (fun _ => none) (.netError "down") 0 0
      ⟨some ⟨.jstr "tok", 1000, none, none⟩, none⟩ "general" "us" "dev" "general" false
      ⟨.jstr "tok", 1000, none, none⟩ rfl).1 rfl rfl (by decide)

/-! ## C4: expiry computation and the `expires_in` default -/

/-- C4 (amended): on a successful fetch whose body carries a truthy
`access_token`, the cached expiry is `now + expires_in` for a truthy integer
`expires_in`; the default 3600 applies when the field is absent **or falsy**
(e.g. the integer 0); a truthy non-numeric `expires_in` does not default —
`int()` fails, the call errors and nothing is cached. -/
theorem get_token_expiry_spec (envv : EnvMap) (http : HttpOutcome) (now : Int)
    (st : TMState) (kind region env k : String) (force_refresh : Bool)
    (body : BodyParse) (tok : JValue)
    (hk : normalizeKind kind = .ok k)
    (hmiss : cacheMiss st k now force_refresh)
    (hfetch : (fetchByKind envv http k region env).result = .ok body)
    (htok : bodyGet body "access_token" = some tok)
    (ht : truthyJ tok = true) :
    (bodyGet body "expires_in" = none →
      (get_token envv http now st kind region env force_refresh).state =
        slotSet st k
          { access_token := tok, expires_at := now + 3600,
            client_id := (credentialEnvVar envv region env k).1,
            client_secret := (credentialEnvVar envv region env k).2 })
    ∧ (∀ n : Int, bodyGet body "expires_in" = some (.jint n) → n ≠ 0 →
        (get_token envv http now st kind region env force_refresh).state =
          slotSet st k
            { access_token := tok, expires_at := now + n,
              client_id := (credentialEnvVar envv region env k).1,
              client_secret := (credentialEnvVar envv region env k).2 })
    ∧ (bodyGet body "expires_in" = some (.jint 0) →
        (get_token envv http now st kind region env force_refresh).state =
          slotSet st k
            { access_token := tok, expires_at := now + 3600,
              client_id := (credentialEnvVar envv region env k).1,
              client_secret := (credentialEnvVar envv region env k).2 })
    ∧ (∀ s : String, bodyGet body "expires_in" = some (.jstr s) → s ≠ "" →
        pyIntOfStr s = none →
        get_token envv http now st kind region env force_refresh =
          ⟨.error (.intParseError s), st, 1,
           (fetchByKind envv http k region env).httpCalls⟩) := by
  refine ⟨?_, ?_, ?_, ?_⟩
  · intro hei
    rw [get_token_miss envv http now st kind region env k force_refresh hk hmiss, hfetch]
    dsimp only
    rw [getTokenStore_success envv now st k region env body _ tok 3600 htok ht (by rw [hei])]
  · intro n hei hn
    have htr : truthyJ (.jint n) = true := by
      simp [truthyJ, hn]
    rw [get_token_miss envv http now st kind region env k force_refresh hk hmiss, hfetch]
    dsimp only
    rw [getTokenStore_success envv now st k region env body _ tok n htok ht
      (by rw [hei]; simp [htr, pyInt])]
  · intro hei
    rw [get_token_miss envv http now st kind region env k force_refresh hk hmiss, hfetch]
    dsimp only
    rw [getTokenStore_success envv now st k region env body _ tok 3600 htok ht
      (by rw [hei]; simp [truthyJ])]
  · intro s hei hs hp
    rw [get_token_miss envv http now st kind region env k force_refresh hk hmiss, hfetch]
    dsimp only
    unfold getTokenStore
    rw [htok]
    have htr : truthyJ (.jstr s) = true := by simp [truthyJ, hs]
    simp only [ht, Bool.not_true, Bool.false_eq_true, if_false, hei, htr, if_true, pyInt, hp]

/-- C4 witness: a body with no `expires_in` caches expiry `now + 3600`. -/
theorem get_token_expiry_spec_witness :
    (get_token (fun _ => some "cid")
        (.resp 200 [] (.json (.jobj (.cons "access_token" (.jstr "tok123") .nil))))
        0 ⟨none, none⟩ "general" "us" "dev" false).state
      = slotSet ⟨none, none⟩ "general"
          ⟨.jstr "tok123", 0 + 3600, some "cid", some "cid"⟩ :=
  (get_token_expiry_spec (fun _ => some "cid")
      (.resp 200 [] (.json (.jobj (.cons "access_token" (.jstr "tok123") .nil))))
      0 ⟨none, none⟩ "general" "us" "dev" "general" false
      (.json (.jobj (.cons "access_token" (.jstr "tok123") .nil))) (.jstr "tok123")
      rfl (Or.inr (Or.inl rfl)) rfl rfl rfl).1 rfl

/-- C4 counterexample: `expires_in = "1h"` is non-numeric but truthy, so the
call raises `ValueError` from `int("1h")` instead of defaulting to 3600; no
token is cached. -/
theorem get_token_nonnumeric_expires_in_counterexample :
    get_token (fun _ => some "cid")
        (.resp 200 [] (.json (.jobj (.cons "access_token" (.jstr "tok")
          (.cons "expires_in" (.jstr "1h") .nil)))))
        0 ⟨none, none⟩ "general" "us" "dev" false
      = ⟨.error (.intParseError "1h"), ⟨none, none⟩, 1, 1⟩ := rfl

/-! ## C5: unresolvable (region, env) pairs -/

/-- C5 (amended): for a (region, env) pair absent from the token-endpoint
table, both fetch functions fail immediately with `EndpointNotFound` and
perform no HTTP call, and `get_token` does the same — state untouched — on
any call that does not hit the cache.  (A warm cache short-circuits before
the pair is consulted; see the counterexample.) -/
theorem endpoint_not_found_spec (envv : EnvMap) (http : HttpOutcome) (region env : String)
    (h : lookupTokenUrl region env = none) :
    fetch_general_token envv http region env = ⟨.error (.endpointNotFound region env), 0⟩
    ∧ fetch_clientops_token envv http region env = ⟨.error (.endpointNotFound region env), 0⟩
    ∧ ∀ (now : Int) (st : TMState) (kind k : String) (force_refresh : Bool),
        normalizeKind kind = .ok k →
        cacheMiss st k now force_refresh →
        get_token envv http now st kind region env force_refresh =
          ⟨.error (.endpointNotFound region env), st, 1, 0⟩ := by
  have hg : fetch_general_token envv http region env =
      ⟨.error (.endpointNotFound region env), 0⟩ := by
    unfold fetch_general_token
    rw [h]
    rfl
  have hc : fetch_clientops_token envv http region env =
      ⟨.error (.endpointNotFound region env), 0⟩ := by
    unfold fetch_clientops_token
    rw [h]
    rfl
  refine ⟨hg, hc, ?_⟩
  intro now st kind k force_refresh hk hmiss
  have hfb : fetchByKind envv http k region env =
      ⟨.error (.endpointNotFound region env), 0⟩ := by
    unfold fetchByKind
    by_cases hkg : (k == "general") = true
    · rw [if_pos hkg]
      exact hg
    · rw [if_neg hkg]
      exact hc
  rw [get_token_miss envv http now st kind region env k force_refresh hk hmiss, hfb]

/-- C5 witness: with an empty cache, `get_token` for the unresolvable pair
(`zz`, `zz`) fails with `EndpointNotFound` and makes no HTTP call. -/
theorem endpoint_not_found_spec_witness :
    get_token (fun _ => none) (.netError "x") 0 ⟨none, none⟩ "general" "zz" "zz" false
      = ⟨.error (.endpointNotFound "zz" "zz"), ⟨none, none⟩, 1, 0⟩ :=
  (endpoint_not_found_spec (fun _ => none) (.netError "x") "zz" "zz" (by decide)).2.2
    0 ⟨none, none⟩ "general" "general" false rfl (Or.inr (Or.inl rfl))

/-- C5 counterexample: the cache is keyed by kind only, so with a warm
`general` slot a call for the unresolvable pair (`zz`, `zz`) *succeeds*
(returning the cached token, no `EndpointNotFound`, no HTTP call), contrary
to the claim that every such call fails. -/
theorem get_token_warm_cache_counterexample :
    lookupTokenUrl "zz" "zz" = none
    ∧ get_token (fun _ => none) (.netError "offline") 0
        ⟨some ⟨.jstr "tok", 10000, none, none⟩, none⟩ "general" "zz" "zz" false
      = ⟨.ok (.jstr "tok"), ⟨some ⟨.jstr "tok", 10000, none, none⟩, none⟩, 0, 0⟩ :=
  ⟨by decide, rfl⟩

/-! ## C9: failed calls leave the cache untouched -/

theorem get_token_state_or_ok (envv : EnvMap) (http : HttpOutcome) (now : Int)
    (st : TMState) (kind region env : String) (force_refresh : Bool) :
    (get_token envv http now st kind region env force_refresh).state = st
    ∨ ∃ tok, (get_token envv http now st kind region env force_refresh).result = .ok tok := by
  unfold get_token
  cases hnk : normalizeKind kind with
  | error e => exact Or.inl rfl
  | ok k =>
      dsimp only
      cases hc : (match slotGet st k with
          | some td =>
              if !force_refresh && decide (td.expires_at > now + 5 * 60) then
                some td.access_token
              else none
          | none => none) with
      | some tok => exact Or.inr ⟨tok, rfl⟩
      | none =>
          dsimp only
          cases hfr : (fetchByKind envv http k region env).result with
          | error e => exact Or.inl rfl
          | ok body =>
              exact getTokenStore_error_state envv now st k region env body _

/-- C9: every failing `get_token` call — unknown kind, unresolvable
endpoint, missing credentials, network error, non-200 token response, a
body without a truthy `access_token`, or an unconvertible `expires_in` —
leaves the token cache exactly as it was. -/
theorem get_token_failure_preserves_cache (envv : EnvMap) (http : HttpOutcome) (now : Int)
    (st : TMState) (kind region env : String) (force_refresh : Bool) (e : TokenError)
    (h : (get_token envv http now st kind region env force_refresh).result = .error e) :
    (get_token envv http now st kind region env force_refresh).state = st := by
  rcases get_token_state_or_ok envv http now st kind region env force_refresh with hst | ⟨tok, hok⟩
  · exact hst
  · rw [hok] at h
    cases h

/-- C9 witness: an unknown kind fails and the (non-empty) cache is unchanged. -/
theorem get_token_failure_preserves_cache_witness :
    (get_token (fun _ => none) (.netError "x") 0
        ⟨some ⟨.jstr "t", 50, none, none⟩, none⟩ "bogus" "us" "dev" false).state
      = ⟨some ⟨.jstr "t", 50, none, none⟩, none⟩ :=
  get_token_failure_preserves_cache (fun _ => none) (.netError "x") 0
    ⟨some ⟨.jstr "t", 50, none, none⟩, none⟩ "bogus" "us" "dev" false
    (.unknownKind "bogus") rfl

/-! ## C6: prepared token requests -/

/-- C6: the general-protocol request carries
`Authorization: Basic base64(id:secret)` and form body exactly
`{grant_type: client_credentials}`; the clientops request has no
Authorization header and form body exactly
`{grant_type: client_credentials, client_id, client_secret}`; both carry
`Content-Type: application/x-www-form-urlencoded`. -/
theorem prepare_requests_spec (client_id client_secret token_url : String) :
    (prepare_general_request client_id client_secret token_url).headers.lookup "Authorization"
      = some ("Basic " ++ b64encode (client_id ++ ":" ++ client_secret))
    ∧ (prepare_general_request client_id client_secret token_url).headers.lookup "Content-Type"
      = some "application/x-www-form-urlencoded"
    ∧ (prepare_general_request client_id client_secret token_url).data
      = [("grant_type", "client_credentials")]
    ∧ (prepare_clientops_request client_id client_secret token_url).headers.lookup "Authorization"
      = none
    ∧ (prepare_clientops_request client_id client_secret token_url).headers.lookup "Content-Type"
      = some "application/x-www-form-urlencoded"
    ∧ (prepare_clientops_request client_id client_secret token_url).data
      = [("grant_type", "client_credentials"), ("client_id", client_id),
         ("client_secret", client_secret)] :=
  ⟨rfl, rfl, rfl, rfl, rfl, rfl⟩

/-- Sanity check of the base64 embedding against the value the upstream
test suite expects for `"cid:csecret"`. -/
theorem b64encode_cid_csecret : b64encode "cid:csecret" = "Y2lkOmNzZWNyZXQ=" := by
  decide

/-! ## C7: response disposition of `_make_request` -/

/-- C7 (amended): a 4xx/5xx response raises a transport failure, but only
after an audit entry holding the redacted request and the redacted response
(body included) has been appended (a second entry then records the error);
a network-level error is logged with an `error` field and re-raised; and
every response with status below 400 — all 2xx but also 1xx/3xx — returns
the normalized `{success: true, status_code, data}` result. -/
theorem make_request_spec (lg : LoggerState) (now : Int) (method endpoint url : String)
    (headers : List (String × String)) (params json_body : Option JValue) :
    (∀ (status : Int) (rh : List (String × String)) (pb : BodyParse),
      400 ≤ status → status < 600 →
      make_request lg now method endpoint url headers params json_body (.resp status rh pb)
        = ⟨{ verbose := lg.verbose,
             entries := lg.entries ++
               [{ timestamp := now, operation := method ++ " " ++ endpoint,
                  request := some (redact_secrets lg.verbose
                    (requestMeta method url headers params json_body)),
                  response := some (redact_secrets lg.verbose (responseMeta status rh pb)),
                  error := none },
                { timestamp := now, operation := method ++ " " ++ endpoint,
                  request := some (redact_secrets lg.verbose
                    (requestMeta method url headers params json_body)),
                  response := none,
                  error := some (httpErrorMsg status url) }] },
           .error (httpErrorMsg status url)⟩)
    ∧ (∀ msg : String, msg ≠ "" →
      make_request lg now method endpoint url headers params json_body (.netError msg)
        = ⟨{ verbose := lg.verbose,
             entries := lg.entries ++
               [{ timestamp := now, operation := method ++ " " ++ endpoint,
                  request := some (redact_secrets lg.verbose
                    (requestMeta method url headers params json_body)),
                  response := none, error := some msg }] },
           .error msg⟩)
    ∧ (∀ (status : Int) (rh : List (String × String)) (pb : BodyParse), status < 400 →
      make_request lg now method endpoint url headers params json_body (.resp status rh pb)
        = ⟨{ verbose := lg.verbose,
             entries := lg.entries ++
               [{ timestamp := now, operation := method ++ " " ++ endpoint,
                  request := some (redact_secrets lg.verbose
                    (requestMeta method url headers params json_body)),
                  response := some (redact_secrets lg.verbose (responseMeta status rh pb)),
                  error := none }] },
           .ok (successResult status pb)⟩) := by
  refine ⟨?_, ?_, ?_⟩
  · intro status rh pb h4 h6
    have hr : raisesForStatus status = true := by
      simp [raisesForStatus, h4, h6]
    unfold make_request
    dsimp only
    rw [hr]
    unfold log_entry
    dsimp only
    simp only [List.append_assoc, List.singleton_append]
    rfl
  · intro msg hmsg
    have hm : (msg != "") = true := by simp [bne_iff_ne, hmsg]
    unfold make_request log_entry
    dsimp only
    rw [hm]
    rfl
  · intro status rh pb hlt
    have hr : raisesForStatus status = false := by
      have h4 : decide (400 ≤ status) = false := decide_eq_false (by omega)
      simp [raisesForStatus, h4]
    unfold make_request
    dsimp only
    rw [hr]
    unfold log_entry
    dsimp only
    rfl

/-- C7 witness: a 404 response is raised only after both the request and
the response body were logged, with a second error entry appended. -/
theorem make_request_spec_witness :
    make_request ⟨false, []⟩ 0 "GET" "/x" "https://h/x" [] none none
        (.resp 404 [] (.text "nf"))
      = ⟨{ verbose := false,
           entries :=
             [{ timestamp := 0, operation := "GET /x",
                request := some (redact_secrets false
                  (requestMeta "GET" "https://h/x" [] none none)),
                response := some (redact_secrets false (responseMeta 404 [] (.text "nf"))),
                error := none },
              { timestamp := 0, operation := "GET /x",
                request := some (redact_secrets false
                  (requestMeta "GET" "https://h/x" [] none none)),
                response := none,
                error := some (httpErrorMsg 404 "https://h/x") }] },
         .error (httpErrorMsg 404 "https://h/x")⟩ :=
  (make_request_spec ⟨false, []⟩ 0 "GET" "/x" "https://h/x" [] none none).1
    404 [] (.text "nf") (by decide) (by decide)

/-- C7 counterexample: a 304 response — non-2xx — does *not* raise: the call
returns the normalized success result, contrary to the claim that every
non-2xx status raises a transport failure. -/
theorem make_request_3xx_counterexample :
    (make_request ⟨false, []⟩ 0 "GET" "/x" "https://h/x" [] none none
        (.resp 304 [] (.text "not modified"))).result
      = .ok (successResult 304 (.text "not modified"))
    ∧ ¬(200 ≤ (304 : Int) ∧ (304 : Int) < 300) := ⟨rfl, by decide⟩

/-! ## C8: `write_to_file` -/

/-- C8: with zero logged entries `write_to_file` returns no path and writes
no file; otherwise it writes exactly the logged entries, in insertion
order, to `output-<timestamp>.json` and returns that path. -/
theorem write_to_file_spec (st : LoggerState) (ts : String) :
    (st.entries = [] → write_to_file st ts = none)
    ∧ (st.entries ≠ [] →
        write_to_file st ts = some ("output-" ++ ts ++ ".json", st.entries)) := by
  constructor
  · intro h
    unfold write_to_file
    rw [h]
    rfl
  · intro h
    unfold write_to_file
    rw [if_neg]
    simpa using h

/-- C8 witness: an empty logger produces no file; a one-entry logger
produces the timestamped path with exactly that entry. -/
theorem write_to_file_spec_witness :
    write_to_file ⟨false, []⟩ "20260101_000000" = none
    ∧ write_to_file ⟨false, [⟨0, "op", none, none, none⟩]⟩ "20260101_000000"
      = some ("output-20260101_000000.json", [⟨0, "op", none, none, none⟩]) := by
  constructor
  · exact (write_to_file_spec ⟨false, []⟩ "20260101_000000").1 rfl
  · rw [(write_to_file_spec ⟨false, [⟨0, "op", none, none, none⟩]⟩ "20260101_000000").2
      (by simp)]
    rfl

/-! ## C10: the process-wide logger singleton -/

/-- C10: the first `get_logger` call fixes the verbosity of the process-wide
logger; every later call returns the same instance with its `verbose`
argument ignored, so an `APIClient` constructed with `verbose := true` after
an earlier non-verbose `get_logger` still holds a non-verbose logger, and
`log_entry` redacts with the logger's own (first-call) verbosity. -/
theorem get_logger_singleton_spec (v1 v2 : Bool) (region env : String)
    (store_id : Option String) (ctype : String) :
    (get_logger v2 (get_logger v1 none).2).1.verbose = v1
    ∧ (∀ l : LoggerState, get_logger v2 (some l) = (l, some l))
    ∧ (apiClientInit region env store_id ctype true (get_logger false none).2).1.logger.verbose
      = false
    ∧ (∀ (lg : LoggerState) (now : Int) (op k : String) (v : JValue) (o : JObj),
        log_entry lg now op (some (.jobj (.cons k v o))) none none
          = { lg with entries := lg.entries ++
              [{ timestamp := now, operation := op,
                 request := some (redact_secrets lg.verbose (.jobj (.cons k v o))),
                 response := none, error := none }] }) :=
  ⟨rfl, fun _ => rfl, rfl, fun _ _ _ _ _ _ => rfl⟩
